import Mathlib

/-!
Shallow embedding of the pandas-bigquery client library core
(jobs.py, gbqconnector.py, tables.py, bigquery.py, tabledata.py).

Python dictionaries whose keys matter for control flow are modelled as
association lists or records with `Option` fields (`none` = key absent);
raised exceptions become constructors of `PyError`; network collaborators
become oracle functions passed as arguments; wall-clock time becomes a
sequence of elapsed-millisecond readings; `while` loops become fuel-indexed
recursion returning `Option` (`none` = fuel exhausted, which never happens
in the theorems below once the fuel is large enough).
-/

namespace PandasBigquery

/-- Exception argument values (Python allows any object as the argument of an
exception constructor, including `None`). -/
inductive PyVal where
  | nonePy : PyVal
  | str (s : String) : PyVal
  | errList (l : List (String × String)) : PyVal
  | payload (code : Nat) (message : String)
      (errors : Option (List (String × String))) : PyVal
  deriving DecidableEq, Repr

/-- Error kinds. All constructors except `configurationError` model exception
classes that exist in the repository (exceptions.py) or the Python builtin
`ValueError`, which jobs.py raises directly for malformed configurations.
`configurationError` is modelled from the spec: the spec names a
`ConfigurationError` kind for malformed job configurations, but no such class
exists in exceptions.py; the code raises plain `ValueError` instead. The
constructor is included so the kind named by the spec can be compared with
the kind the code raises. -/
inductive PyError where
  | valueError (msg : String) : PyError
  | configurationError (msg : String) : PyError
  | accessDenied (msg : String) : PyError
  | genericGBQException (arg : PyVal) : PyError
  | invalidPageToken (msg : Option String) : PyError
  | invalidSchema (msg : String) : PyError
  | notFoundException (msg : String) : PyError
  | queryTimeout (msg : String) : PyError
  | streamingInsertError (msg : Option String) : PyError
  | tableCreationError (msg : String) : PyError
  deriving DecidableEq, Repr

/-!
Model of `Bigquery.run_with_retry` (bigquery.py lines 286-294):

```python
for i in range(0, max_tries):
    try:
        return func(**kwargs), i + 1
    except Exception as err:
        log.warning(...)
        if i == max_tries - 1:
            raise err
```

The operation is modelled as a function from the 0-based call index to the
outcome of that call. The loop returns `none` only when it falls off the end
of `range` without returning or raising (Python then returns `None`), which
happens exactly when `max_tries = 0`.
-/

def retryFrom {E A : Type} (op : Nat → Except E A) (max_tries : Nat) (i : Nat) :
    Option (Except E (A × Nat)) :=
  if _h : i < max_tries then
    match op i with
    | .ok a => some (.ok (a, i + 1))
    | .error e =>
        if i = max_tries - 1 then some (.error e)
        else retryFrom op max_tries (i + 1)
  else
    none
termination_by max_tries - i

def run_with_retry {E A : Type} (op : Nat → Except E A) (max_tries : Nat) :
    Option (Except E (A × Nat)) :=
  retryFrom op max_tries 0

/-!
Schema comparison (tables.py lines 237-265). A BigQuery schema field is a
dict with keys "name" and "type". `Tables.schema_is_subset` lowercases the
names on both sides and checks that every local field dict occurs in the
remote field list; the remote fetch is abstracted into the `remote_fields`
argument.
-/

structure Field where
  name : String
  type : String
  deriving DecidableEq, Repr

/-- Model of the Python string method `lower()`: lowercase each character. -/
def strLower (s : String) : String :=
  ⟨s.data.map Char.toLower⟩

/-- Normalization applied to each field by `schema_is_subset`: replace the
name by its lowercased form, keep the type. -/
def normalizeFields (fields : List Field) : List Field :=
  fields.map (fun f => { name := strLower f.name, type := f.type })

/-- Model of `Tables.schema_is_subset`:
`all(field in fields_remote for field in fields_local)` after normalizing
both sides. -/
def schema_is_subset (remote_fields : List Field) (local_fields : List Field) : Bool :=
  (normalizeFields local_fields).all
    (fun f => (normalizeFields remote_fields).any (fun g => g = f))

/-!
Model of `rsplit(sep, 1)` and the partition decorator (tables.py lines
313-316 and 349-351). `table_id.rsplit(sep, 1)` splits at the LAST
occurrence of the separator; the list-level helper returns `none` when the
separator does not occur.
-/

def rsplitList (sep : Char) : List Char → Option (List Char × List Char)
  | [] => none
  | c :: cs =>
      match rsplitList sep cs with
      | some (a, b) => some (c :: a, b)
      | none => if c = sep then some ([], cs) else none

/-- Python `s.rsplit(sep, 1)` restricted to strings that contain `sep`:
the pieces before and after the last occurrence of `sep`. -/
def rsplitOnce (sep : Char) (s : String) : Option (String × String) :=
  (rsplitList sep s.data).map (fun p => (⟨p.1⟩, ⟨p.2⟩))

/-- Model of `Tables.contains_partition_decorator`: a dollar sign occurs
anywhere in the table id. -/
def contains_partition_decorator (table_id : String) : Bool :=
  decide ('$' ∈ table_id.data)

/-- Outcome of the remote `tables().get` call used by `Tables.exists`:
HTTP 200, HTTP 404, or another HTTP error carrying the `errors` field of the
parsed JSON payload (a list of (reason, message) pairs, or absent). -/
inductive GetTableResult where
  | ok : GetTableResult
  | notFound404 : GetTableResult
  | httpError (errors : Option (List (String × String))) : GetTableResult
  deriving DecidableEq, Repr

/-!
Model of `GbqConnector.process_http_error` (gbqconnector.py lines 345-361):

```python
status = json.loads(bytes_to_str(ex.content))["error"]
errors = status.get("errors", None)
if errors:
    for error in errors:
        reason = error["reason"]
        message = error["message"]
        raise GenericGBQException(
            "Reason: {0}, Message: {1}".format(reason, message))
raise GenericGBQException(errors)
```

The `for` loop raises on its first iteration, so only the first entry
matters. `if errors:` is Python truthiness: `None` and the empty list both
fall through to the final raise, whose argument is the value of `errors`
(not the payload `status`). The function always raises, so the model returns
the raised error.
-/

def process_http_error (errors : Option (List (String × String))) : PyError :=
  match errors with
  | some ((reason, message) :: _) =>
      .genericGBQException (.str ("Reason: " ++ reason ++ ", Message: " ++ message))
  | some [] => .genericGBQException (.errList [])
  | none => .genericGBQException .nonePy

/-- Modelled from the spec: the error-translation rule of section 4.6, which
says that when the payload has no structured errors, `GenericGBQException`
is raised with the raw payload. The payload is the parsed `status` dict,
carried here as code, message and the optional `errors` field. -/
def process_http_error_spec (code : Nat) (message : String)
    (errors : Option (List (String × String))) : PyError :=
  match errors with
  | some ((reason, msg) :: _) =>
      .genericGBQException (.str ("Reason: " ++ reason ++ ", Message: " ++ msg))
  | _ => .genericGBQException (.payload code message errors)

/-- The GET step of `Tables.exists` (the try/except block of tables.py lines
318-328): 200 maps to `True`, 404 to `False`, any other HTTP error is
translated by `process_http_error`. -/
def tables_exists_get (getTable : String → GetTableResult) (root_table_id : String) :
    Except PyError Bool :=
  match getTable root_table_id with
  | .ok => .ok true
  | .notFound404 => .ok false
  | .httpError errors => .error (process_http_error errors)

/-- Model of `Tables.exists` (tables.py lines 296-328): strip a partition
decorator if present, then GET the root table. The remote side is the oracle
`getTable` from table id to call outcome. -/
def tables_exists (getTable : String → GetTableResult) (table_id : String) :
    Except PyError Bool :=
  let root_table_id :=
    if contains_partition_decorator table_id then
      match rsplitOnce '$' table_id with
      | some (root, _) => root
      | none => table_id
    else table_id
  tables_exists_get getTable root_table_id

/-!
Job configuration validation (jobs.py lines 46-73 and 140-161). A job
configuration is a Python dict from a job-kind key to a dict of options; the
validation logic only inspects key names, so the configuration is modelled
as an association list from the kind to the list of its option key names.
-/

/-- Model of `",".join(config.keys())`. -/
def joinKeys (config : List (String × List String)) : String :=
  String.intercalate "," (config.map Prod.fst)

/-- Union of key sets as produced by `dict.update`: keys of the base dict
plus the new keys of the overlay. -/
def keysUnion (base overlay : List String) : List String :=
  base ++ overlay.filter (fun k => ¬ base.contains k)

/-- Configuration handling of `Jobs.query` (jobs.py lines 140-161),
returning the key set of the merged query options dict. The query text
parameter is `none` when the caller passed `query=None`. This runs before
`jobs.insert` is called, so an error here means no network call was made. -/
def jobs_query_validate (query : Option String)
    (config : Option (List (String × List String))) : Except PyError (List String) :=
  let base := ["query"]
  match config with
  | none => .ok base
  | some cfg =>
      if cfg.length ≠ 1 then
        .error (.valueError
          ("Only one job type must be specified, but given " ++ joinKeys cfg))
      else
        match cfg.lookup "query" with
        | some opts =>
            if opts.contains "query" ∧ query ≠ none then
              .error (.valueError
                ("Query statement can\u0027t be specified inside config " ++
                 "while it is specified as parameter"))
            else
              let merged := keysUnion base opts
              if merged.contains "destinationTable" then
                .ok (keysUnion merged ["allowLargeResults"])
              else .ok merged
        | none => .error (.valueError "Only \u0027query\u0027 job type is supported")

/-- Configuration handling of `Jobs.copy` (jobs.py lines 46-73), returning
the key set of the merged copy options dict (whose base keys are the
destination and source table references built from the parameters). This
runs before `jobs.insert` is called. -/
def jobs_copy_validate (config : Option (List (String × List String))) :
    Except PyError (List String) :=
  let base := ["destinationTable", "sourceTable"]
  match config with
  | none => .ok base
  | some cfg =>
      if cfg.length ≠ 1 then
        .error (.valueError
          ("Only one job type must be specified, but given " ++ joinKeys cfg))
      else
        match cfg.lookup "copy" with
        | some opts =>
            if opts.contains "destinationTable" ∨ opts.contains "sourceTable" then
              .error (.valueError
                "source and destination table must be specified as parameters")
            else .ok (keysUnion base opts)
        | none => .error (.valueError "Only \u0027copy\u0027 job type is supported")

/-!
The query job poll loop (jobs.py lines 188-200):

```python
while not query_reply.get("jobComplete", False):
    self.print_elapsed_seconds("  Elapsed", "s. Waiting...")
    timeout_ms = job_config["query"].get("timeoutMs")
    if timeout_ms and timeout_ms < self.get_elapsed_seconds() * 1000:
        raise QueryTimeout("Query timeout: {} ms".format(timeout_ms))
    query_reply = job_collection.getQueryResults(...).execute()
```

`replies` is the sequence of responses: index 0 is the `jobs.insert`
response, index n+1 the response of the (n+1)-st `getQueryResults` poll.
`elapsedMs n` is the elapsed wall-clock reading, in milliseconds, taken by
the timeout check of the loop iteration that inspects `replies n`
(`get_elapsed_seconds() * 1000`). `timeoutMs = none` models an absent
timeoutMs key; `some 0` is falsy in Python, so it disables the check too.
The loop is fuel-indexed; `none` means the fuel ran out before the job
completed or timed out. On success it returns the index of the completing
reply.
-/

structure QueryReply (Sch Row : Type) where
  jobComplete : Option Bool := none
  schema : Sch
  totalRows : Option Nat := none
  rows : Option (List Row) := none
  pageToken : Option String := none

def poll_loop {Sch Row : Type} (timeoutMs : Option Nat)
    (replies : Nat → QueryReply Sch Row) (elapsedMs : Nat → Nat) :
    Nat → Nat → Option (Except PyError Nat)
  | 0, _ => none
  | fuel + 1, n =>
      if (replies n).jobComplete.getD false then some (.ok n)
      else
        match timeoutMs with
        | some t =>
            if t ≠ 0 ∧ t < elapsedMs n then
              some (.error (.queryTimeout ("Query timeout: " ++ toString t ++ " ms")))
            else poll_loop timeoutMs replies elapsedMs fuel (n + 1)
        | none => poll_loop timeoutMs replies elapsedMs fuel (n + 1)

/-!
The result drain loop (jobs.py lines 215-266):

```python
try:
    total_rows = int(query_reply["totalRows"])
except KeyError:
    total_rows = 0
result_pages = list()
seen_page_tokens = list()
current_row = 0
schema = query_reply["schema"]          (only read schema on first page)
while "rows" in query_reply and current_row < total_rows:
    page = query_reply["rows"]
    result_pages.append(page)
    current_row += len(page)
    if current_row == total_rows:
        break
    page_token = query_reply.get("pageToken", None)
    if not page_token and current_row < total_rows:
        raise InvalidPageToken("Required pageToken was missing. "
                               "Received {0} of {1} rows"
                               .format(current_row, total_rows))
    elif page_token in seen_page_tokens:
        raise InvalidPageToken("A duplicate pageToken was returned")
    seen_page_tokens.append(page_token)
    query_reply = job_collection.getQueryResults(..., pageToken=page_token).execute()
if current_row < total_rows:
    raise InvalidPageToken()
return schema, result_pages
```

`fetch` is the remote double for `getQueryResults` keyed by the page token
it was asked for.
-/

/-- Python truthiness of an optional string: `None` and the empty string are
falsy. -/
def optStrFalsy : Option String → Bool
  | none => true
  | some s => s = ""

def drainLoop {Sch Row : Type} (fetch : Option String → QueryReply Sch Row)
    (total_rows : Nat) :
    Nat → QueryReply Sch Row → List (List Row) → List (Option String) → Nat →
    Option (Except PyError (List (List Row)))
  | 0, _, _, _, _ => none
  | fuel + 1, reply, pages, seen, current_row =>
      match reply.rows with
      | some page =>
          if current_row < total_rows then
            let pages := pages ++ [page]
            let current_row := current_row + page.length
            if current_row = total_rows then some (.ok pages)
            else
              let page_token := reply.pageToken
              if optStrFalsy page_token ∧ current_row < total_rows then
                some (.error (.invalidPageToken (some
                  ("Required pageToken was missing. Received " ++
                   toString current_row ++ " of " ++ toString total_rows ++ " rows"))))
              else if page_token ∈ seen then
                some (.error (.invalidPageToken (some "A duplicate pageToken was returned")))
              else
                drainLoop fetch total_rows fuel (fetch page_token) pages
                  (seen ++ [page_token]) current_row
          else
            some (if current_row < total_rows then .error (.invalidPageToken none)
                  else .ok pages)
      | none =>
          some (if current_row < total_rows then .error (.invalidPageToken none)
                else .ok pages)

/-- The result-retrieval part of `Jobs.query`: read totalRows (0 when the
key is absent) and the schema from the first response only, run the drain
loop, and pair the captured schema with the accumulated pages. -/
def drain {Sch Row : Type} (fetch : Option String → QueryReply Sch Row)
    (first : QueryReply Sch Row) (fuel : Nat) :
    Option (Except PyError (Sch × List (List Row))) :=
  let total_rows := first.totalRows.getD 0
  let schema := first.schema
  (drainLoop fetch total_rows fuel first [] [] 0).map
    (fun r => r.map (fun pages => (schema, pages)))

/-!
Model of `GbqConnector.process_insert_errors` (gbqconnector.py lines
363-383):

```python
for insert_error in insert_errors:
    row = insert_error["index"]
    errors = insert_error.get("errors", None)
    for error in errors:
        reason = error["reason"]
        message = error["message"]
        location = error["location"]
        error_message = ("Error at Row: {0}, Reason: {1}, "
                         "Location: {2}, Message: {3}"
                         .format(row, reason, location, message))
        if self.verbose:
            self._print(error_message)
        else:
            raise StreamingInsertError(error_message +
                                       "\nEnable verbose logging to "
                                       "see all errors")
raise StreamingInsertError
```

The result pairs the messages printed by `self._print` with the exception
raised; `none` in the second component means the function returned without
raising — which, because of the final unconditional raise, never happens.
-/

structure InsertErrorEntry where
  reason : String
  message : String
  location : String
  deriving DecidableEq, Repr

structure InsertError where
  index : Nat
  errors : List InsertErrorEntry
  deriving DecidableEq, Repr

def format_insert_error (row : Nat) (e : InsertErrorEntry) : String :=
  "Error at Row: " ++ toString row ++ ", Reason: " ++ e.reason ++
  ", Location: " ++ e.location ++ ", Message: " ++ e.message

/-- Inner loop over the error entries of one failing row. -/
def process_insert_errors_inner (verbose : Bool) (row : Nat) :
    List InsertErrorEntry → List String × Option PyError
  | [] => ([], none)
  | e :: es =>
      let msg := format_insert_error row e
      if verbose then
        let rest := process_insert_errors_inner verbose row es
        (msg :: rest.1, rest.2)
      else
        ([], some (.streamingInsertError (some
          (msg ++ "\nEnable verbose logging to see all errors"))))

/-- Outer loop over the failing rows. -/
def process_insert_errors_outer (verbose : Bool) :
    List InsertError → List String × Option PyError
  | [] => ([], none)
  | ie :: rest =>
      let r := process_insert_errors_inner verbose ie.index ie.errors
      match r.2 with
      | some e => (r.1, some e)
      | none =>
          let r2 := process_insert_errors_outer verbose rest
          (r.1 ++ r2.1, r2.2)

def process_insert_errors (verbose : Bool) (insert_errors : List InsertError) :
    List String × Option PyError :=
  match process_insert_errors_outer verbose insert_errors with
  | (out, some e) => (out, some e)
  | (out, none) => (out, some (.streamingInsertError none))

/-!
Model of `Bigquery.upload` (bigquery.py lines 176-279). The collaborators
(`Tables`, `Tabledata`, `Jobs`, and the nested `self.query` call used for
the partition row count) are the boundary: their calls are recorded as
`Action` values in order, and their outcomes are supplied by the `RemoteEnv`
oracle. The dataframe itself is abstracted to its generated schema
(the output of `Tables.generate_schema_from_dataframe`), which is all that
`upload` inspects.
-/

structure TableRef where
  projectId : String
  datasetId : String
  tableId : String
  deriving DecidableEq, Repr

/-- The query options dict passed to `Jobs.query` as configuration overlay;
`none` fields model absent keys. -/
structure QueryJobConfig where
  priority : Option String := none
  useLegacySql : Option Bool := none
  destinationTable : Option TableRef := none
  createDisposition : Option String := none
  writeDisposition : Option String := none
  allowLargeResults : Option Bool := none
  deriving DecidableEq, Repr

inductive Action where
  | tablesInsert (datasetId tableId : String) (schema : List Field) : Action
  | tabledataInsertAll (datasetId tableId : String) : Action
  | jobsQuery (query : String) (config : QueryJobConfig) : Action
  | tablesDelete (datasetId tableId : String) : Action
  | tablesDeleteAndRecreate (datasetId tableId : String) : Action
  deriving DecidableEq, Repr

/-- An overwrite job: a query job submitted with a destination table set. -/
def Action.isOverwriteJob : Action → Bool
  | .jobsQuery _ cfg => cfg.destinationTable.isSome
  | _ => false

structure RemoteEnv where
  projectId : String
  /-- Outcome of `self.tables.exists(dataset_id, t)`, per table id. -/
  tableExists : String → Bool
  /-- Remote schema fields of a table (`Tables.get_schema`), per table id. -/
  remoteSchemaFields : String → List Field
  /-- Whether the timePartitioning key is present in the `tables.get`
  resource, per table id. -/
  timePartitioned : String → Bool
  /-- The num_rows value returned by the partition row-count probe. -/
  partitionNumRows : Nat
  /-- Value of `randint(1, 100000)` used for the temporary table name. -/
  rand : Nat

def invalidSchemaMsg : String :=
  "Please verify that the structure and data types in the DataFrame match " ++
  "the schema of the destination table."

/-- Model of `Bigquery.upload`, yielding the ordered list of collaborator
calls it issues, or the exception it raises. `table_schema` is the schema
generated from the dataframe. -/
def upload (env : RemoteEnv) (table_schema : List Field)
    (destination_table : String) (if_exists : String) :
    Except PyError (List Action) :=
  if ¬ (if_exists = "fail" ∨ if_exists = "replace" ∨ if_exists = "append") then
    .error (.valueError ("\u0027" ++ if_exists ++ "\u0027 is not valid for if_exists"))
  else if ¬ ('.' ∈ destination_table.data) then
    .error (.notFoundException
      "Invalid Table Name. Should be of the form \u0027datasetId.tableId\u0027 ")
  else
    match rsplitOnce '.' destination_table with
    | none =>
        .error (.notFoundException
          "Invalid Table Name. Should be of the form \u0027datasetId.tableId\u0027 ")
    | some (dataset_id, table_id) =>
        if contains_partition_decorator table_id then
          match rsplitOnce '$' table_id with
          | none => .error (.valueError "unreachable: decorator present but no separator")
          | some (root_table_id, partition_id) =>
              if ¬ env.tableExists root_table_id then
                .error (.notFoundException
                  "Could not write to the partition because the table does not exist.")
              else if ¬ env.timePartitioned root_table_id then
                .error (.invalidSchema
                  "Could not write to the partition because the table is not partitioned.")
              else
                let countAction := Action.jobsQuery
                  ("SELECT COUNT(*) AS num_rows FROM " ++ destination_table)
                  { priority := some "INTERACTIVE", useLegacySql := some true }
                let partition_exists := env.partitionNumRows > 0
                if partition_exists then
                  if if_exists = "fail" then
                    .error (.tableCreationError
                      ("Could not create the partition because it already exists. " ++
                       "Change the if_exists parameter to append or replace data."))
                  else if if_exists = "append" then
                    if ¬ schema_is_subset (env.remoteSchemaFields root_table_id)
                        table_schema then
                      .error (.invalidSchema invalidSchemaMsg)
                    else
                      .ok [countAction, .tabledataInsertAll dataset_id table_id]
                  else
                    if ¬ schema_is_subset (env.remoteSchemaFields root_table_id)
                        table_schema then
                      .error (.invalidSchema invalidSchemaMsg)
                    else
                      let temporary_table_id :=
                        root_table_id ++ "_" ++ partition_id ++ "_" ++ toString env.rand
                      .ok [countAction,
                           .tablesInsert dataset_id temporary_table_id table_schema,
                           .tabledataInsertAll dataset_id temporary_table_id,
                           .jobsQuery
                             ("select * from " ++ dataset_id ++ "." ++ temporary_table_id)
                             { destinationTable := some
                                 { projectId := env.projectId,
                                   datasetId := dataset_id,
                                   tableId := table_id },
                               createDisposition := some "CREATE_IF_NEEDED",
                               writeDisposition := some "WRITE_TRUNCATE",
                               allowLargeResults := some true },
                           .tablesDelete dataset_id temporary_table_id]
                else
                  .ok [countAction, .tabledataInsertAll dataset_id table_id]
        else
          if env.tableExists table_id then
            if if_exists = "fail" then
              .error (.tableCreationError
                ("Could not create the table because it already exists. " ++
                 "Change the if_exists parameter to append or replace data."))
            else if if_exists = "replace" then
              .ok [.tablesDeleteAndRecreate dataset_id table_id,
                   .tabledataInsertAll dataset_id table_id]
            else
              if ¬ schema_is_subset (env.remoteSchemaFields table_id) table_schema then
                .error (.invalidSchema invalidSchemaMsg)
              else
                .ok [.tabledataInsertAll dataset_id table_id]
          else
            .ok [.tablesInsert dataset_id table_id table_schema,
                 .tabledataInsertAll dataset_id table_id]

/-!
Helper lemmas shared by the claim theorems.
-/

theorem rsplitList_eq_append {sep : Char} :
    ∀ {l a b : List Char}, rsplitList sep l = some (a, b) → l = a ++ sep :: b := by
  intro l
  induction l with
  | nil => intro a b h; simp [rsplitList] at h
  | cons c cs ih =>
      intro a b h
      cases hcs : rsplitList sep cs with
      | some p =>
          obtain ⟨p1, p2⟩ := p
          simp only [rsplitList, hcs, Option.some.injEq, Prod.mk.injEq] at h
          obtain ⟨ha, hb⟩ := h
          subst ha
          subst hb
          simp [ih hcs]
      | none =>
          simp only [rsplitList, hcs] at h
          by_cases hc : c = sep
          · simp only [hc, eq_self_iff_true, ite_true, Option.some.injEq,
              Prod.mk.injEq] at h
            obtain ⟨ha, hb⟩ := h
            subst ha
            subst hb
            simp [hc]
          · simp [hc] at h

theorem mem_of_rsplitOnce {sep : Char} {s : String} {pr : String × String}
    (h : rsplitOnce sep s = some pr) : sep ∈ s.data := by
  rw [rsplitOnce] at h
  cases hq : rsplitList sep s.data with
  | none => rw [hq] at h; simp at h
  | some p =>
      obtain ⟨a, b⟩ := p
      rw [rsplitList_eq_append hq]
      simp

/-- Claim conclusions need one `retryFrom` unfolding equality. -/
theorem retryFrom_eq {E A : Type} (op : Nat → Except E A) (max_tries i : Nat) :
    retryFrom op max_tries i =
      if i < max_tries then
        match op i with
        | .ok a => some (.ok (a, i + 1))
        | .error e =>
            if i = max_tries - 1 then some (.error e)
            else retryFrom op max_tries (i + 1)
      else none := by
  rw [retryFrom]
  split
  · rfl
  · rfl

theorem retryFrom_congr {E A : Type} (op op' : Nat → Except E A) (mt : Nat)
    (hagree : ∀ m, m < mt → op' m = op m) :
    ∀ k i, mt - i ≤ k → retryFrom op' mt i = retryFrom op mt i := by
  intro k
  induction k with
  | zero =>
      intro i hi
      have h : ¬ i < mt := by omega
      rw [retryFrom_eq op' mt i, retryFrom_eq op mt i, if_neg h, if_neg h]
  | succ k ih =>
      intro i hi
      rw [retryFrom_eq op' mt i, retryFrom_eq op mt i]
      by_cases h : i < mt
      · rw [if_pos h, if_pos h, hagree i h]
        cases op i with
        | ok a => rfl
        | error e =>
            show (if i = mt - 1 then some (Except.error e) else retryFrom op' mt (i + 1))
              = (if i = mt - 1 then some (Except.error e) else retryFrom op mt (i + 1))
            by_cases hl : i = mt - 1
            · rw [if_pos hl, if_pos hl]
            · rw [if_neg hl, if_neg hl]
              exact ih (i + 1) (by omega)
      · rw [if_neg h, if_neg h]

theorem retryFrom_skip {E A : Type} (op : Nat → Except E A) (mt : Nat) :
    ∀ k i j, i ≤ j → j < mt → (∀ m, i ≤ m → m < j → ∃ e, op m = .error e) →
    j - i ≤ k → retryFrom op mt i = retryFrom op mt j := by
  intro k
  induction k with
  | zero =>
      intro i j hij hj hfail hk
      have : i = j := by omega
      subst this
      rfl
  | succ k ih =>
      intro i j hij hj hfail hk
      rcases Nat.eq_or_lt_of_le hij with heq | hlt
      · subst heq; rfl
      · obtain ⟨e, he⟩ := hfail i le_rfl hlt
        have hi : i < mt := lt_trans hlt hj
        have hne : i ≠ mt - 1 := by omega
        rw [retryFrom_eq op mt i, if_pos hi, he]
        show (if i = mt - 1 then some (Except.error e) else retryFrom op mt (i + 1))
          = retryFrom op mt j
        rw [if_neg hne]
        exact ih (i + 1) j hlt hj (fun m hm1 hm2 => hfail m (by omega) hm2) (by omega)

/-- Claim C5: `run_with_retry(op, max_tries)` invokes `op` at most
`max_tries` times total; if `op` succeeds on attempt `k ≤ max_tries` it
returns `(result, k)`; if `op` fails on all `max_tries` attempts, the
exception of the final attempt is re-raised unmodified after exactly
`max_tries` invocations. The first conjunct is the success case, the second
the all-fail case, the third says the outcome only depends on the first
`max_tries` outcomes of `op` (so no more than `max_tries` calls are ever
consulted). -/
theorem C5_run_with_retry {E A : Type} (op : Nat → Except E A) (max_tries : Nat)
    (hmt : 1 ≤ max_tries) :
    (∀ k a, 1 ≤ k → k ≤ max_tries →
      (∀ j, j < k - 1 → ∃ e, op j = .error e) → op (k - 1) = .ok a →
      run_with_retry op max_tries = some (.ok (a, k))) ∧
    (∀ e, (∀ i, i < max_tries → ∃ d, op i = .error d) →
      op (max_tries - 1) = .error e →
      run_with_retry op max_tries = some (.error e)) ∧
    (∀ op' : Nat → Except E A, (∀ i, i < max_tries → op' i = op i) →
      run_with_retry op' max_tries = run_with_retry op max_tries) := by
  refine ⟨?_, ?_, ?_⟩
  · intro k a hk1 hk2 hfail hok
    have h1 : retryFrom op max_tries 0 = retryFrom op max_tries (k - 1) :=
      retryFrom_skip op max_tries (k - 1) 0 (k - 1) (by omega) (by omega)
        (fun m _ hm2 => hfail m hm2) (by omega)
    have hklt : k - 1 < max_tries := by omega
    rw [run_with_retry, h1, retryFrom_eq op max_tries (k - 1), if_pos hklt, hok]
    show some (Except.ok (a, k - 1 + 1)) = some (Except.ok (a, k))
    have hk : k - 1 + 1 = k := by omega
    rw [hk]
  · intro e hfail hlast
    have h1 : retryFrom op max_tries 0 = retryFrom op max_tries (max_tries - 1) :=
      retryFrom_skip op max_tries (max_tries - 1) 0 (max_tries - 1) (by omega) (by omega)
        (fun m _ hm2 => hfail m (by omega)) (by omega)
    have hlt : max_tries - 1 < max_tries := by omega
    rw [run_with_retry, h1, retryFrom_eq op max_tries (max_tries - 1), if_pos hlt, hlast]
    show (if max_tries - 1 = max_tries - 1 then some (Except.error e)
          else retryFrom op max_tries (max_tries - 1 + 1)) = some (Except.error e)
    rw [if_pos rfl]
  · intro op' hagree
    exact retryFrom_congr op op' max_tries hagree max_tries 0 (by omega)

/-- Witness for C5 at a concrete operation that fails twice and succeeds on
the third call, with a total budget of three attempts. -/
theorem C5_run_with_retry_witness :
    run_with_retry (fun i => if i < 2 then Except.error (toString i) else Except.ok 42) 3
      = some (.ok (42, 3)) := by
  refine (C5_run_with_retry
    (fun i => if i < 2 then Except.error (toString i) else Except.ok 42) 3
    (by norm_num)).1 3 42 (by norm_num) (by norm_num) ?_ (by norm_num)
  intro j hj
  interval_cases j
  · exact ⟨toString 0, rfl⟩
  · exact ⟨toString 1, rfl⟩

/-- Claim C9: the schema subset check is reflexive after case-insensitive
normalization, and asymmetric under strict extension: when `B = A ++ [f]`
for a field `f` whose normalized form is absent from the normalized fields
of `A`, `is_subset(A, B)` holds and `is_subset(B, A)` fails. In the source,
`is_subset(local, remote)` is `schema_is_subset remote local`. -/
theorem C9_schema_subset_laws (A : List Field) (f : Field)
    (hf : ({ name := strLower f.name, type := f.type } : Field) ∉ normalizeFields A) :
    schema_is_subset A A = true ∧
    schema_is_subset (A ++ [f]) A = true ∧
    schema_is_subset A (A ++ [f]) = false := by
  refine ⟨?_, ?_, ?_⟩
  · simp only [schema_is_subset, List.all_eq_true, List.any_eq_true, decide_eq_true_eq]
    exact fun g hg => ⟨g, hg, rfl⟩
  · simp only [schema_is_subset, List.all_eq_true, List.any_eq_true, decide_eq_true_eq]
    intro g hg
    refine ⟨g, ?_, rfl⟩
    simp only [normalizeFields, List.map_append]
    exact List.mem_append_left _ hg
  · rw [← Bool.not_eq_true]
    simp only [schema_is_subset, List.all_eq_true, List.any_eq_true, decide_eq_true_eq]
    intro hall
    have hmem : ({ name := strLower f.name, type := f.type } : Field)
        ∈ normalizeFields (A ++ [f]) := by
      simp [normalizeFields]
    obtain ⟨g, hg, hge⟩ := hall _ hmem
    exact hf (hge ▸ hg)

/-- Witness for C9 at a schema whose field name differs from its normalized
form only in case, extended with a genuinely new field. -/
theorem C9_schema_subset_laws_witness :
    (({ name := strLower "b", type := "INTEGER" } : Field)
        ∉ normalizeFields [⟨"Col_A", "STRING"⟩]) ∧
    (schema_is_subset [⟨"Col_A", "STRING"⟩] [⟨"Col_A", "STRING"⟩] = true ∧
     schema_is_subset ([⟨"Col_A", "STRING"⟩] ++ [⟨"b", "INTEGER"⟩])
       [⟨"Col_A", "STRING"⟩] = true ∧
     schema_is_subset [⟨"Col_A", "STRING"⟩]
       ([⟨"Col_A", "STRING"⟩] ++ [⟨"b", "INTEGER"⟩]) = false) :=
  ⟨by decide, C9_schema_subset_laws [⟨"Col_A", "STRING"⟩] ⟨"b", "INTEGER"⟩ (by decide)⟩

/-- Claim C10: for every table id containing a dollar sign anywhere, the
existence check strips everything after the last dollar sign and reports
existence of the root table only, whatever the suffix is; in particular it
returns true whenever the root GET succeeds. -/
theorem C10_exists_strips_partition_decorator
    (getTable : String → GetTableResult) (table_id root part : String)
    (h : rsplitOnce '$' table_id = some (root, part)) :
    tables_exists getTable table_id = tables_exists_get getTable root ∧
    (getTable root = .ok → tables_exists getTable table_id = .ok true) := by
  have hmem : '$' ∈ table_id.data := mem_of_rsplitOnce h
  have hcont : contains_partition_decorator table_id = true := by
    simp [contains_partition_decorator, hmem]
  have hmain : tables_exists getTable table_id = tables_exists_get getTable root := by
    rw [tables_exists]
    simp only [hcont, if_pos, h]
  refine ⟨hmain, fun hok => ?_⟩
  rw [hmain, tables_exists_get, hok]

/-- Witness for C10: the decorated id tbl$20240101 is reported to exist
because the root table tbl exists, no matter what the partition holds. -/
theorem C10_exists_strips_partition_decorator_witness :
    tables_exists (fun t => if t = "tbl" then .ok else .notFound404) "tbl$20240101"
      = .ok true :=
  (C10_exists_strips_partition_decorator
    (fun t => if t = "tbl" then .ok else .notFound404)
    "tbl$20240101" "tbl" "20240101" (by decide)).2 (by decide)

/-- Claim C7, counterexample to the second half as stated: on a payload with
no structured errors the code raises `GenericGBQException(None)` — the value
of the errors field — not the raw payload that the spec-modelled rule
produces. -/
theorem C7_counterexample :
    process_http_error none = .genericGBQException .nonePy ∧
    process_http_error_spec 404 "notFound" none
      = .genericGBQException (.payload 404 "notFound" none) ∧
    process_http_error none ≠ process_http_error_spec 404 "notFound" none :=
  ⟨rfl, rfl, by decide⟩

/-- Claim C7 as amended: with one or more (reason, message) entries the
first entry is surfaced as a formatted `GenericGBQException`; with no
structured errors, `GenericGBQException` is raised carrying the falsy errors
value itself (`None` when the key is absent, the empty list when present and
empty), not the raw payload. -/
theorem C7_error_translation (reason message : String)
    (rest : List (String × String)) :
    process_http_error (some ((reason, message) :: rest))
      = .genericGBQException (.str ("Reason: " ++ reason ++ ", Message: " ++ message)) ∧
    process_http_error none = .genericGBQException .nonePy ∧
    process_http_error (some []) = .genericGBQException (.errList []) :=
  ⟨rfl, rfl, rfl⟩

/-- Claim C6, counterexample to the verbose half as stated: with verbose
reporting enabled and a single failing row, processing still raises (a bare
`StreamingInsertError`), so it is not true that no exception is raised for
the batch. -/
theorem C6_counterexample :
    (process_insert_errors true [⟨0, [⟨"invalid", "bad", "field"⟩]⟩]).2
      = some (.streamingInsertError none) ∧
    (process_insert_errors true [⟨0, [⟨"invalid", "bad", "field"⟩]⟩]).2 ≠ none :=
  ⟨rfl, by decide⟩

theorem process_insert_errors_inner_true (row : Nat) :
    ∀ es : List InsertErrorEntry,
      process_insert_errors_inner true row es
        = (es.map (format_insert_error row), none) := by
  intro es
  induction es with
  | nil => rfl
  | cons e es ih =>
      simp only [process_insert_errors_inner, if_pos, ih, List.map_cons]

theorem process_insert_errors_outer_true :
    ∀ ies : List InsertError,
      process_insert_errors_outer true ies
        = (ies.flatMap (fun ie => ie.errors.map (format_insert_error ie.index)), none) := by
  intro ies
  induction ies with
  | nil => rfl
  | cons ie rest ih =>
      simp only [process_insert_errors_outer, process_insert_errors_inner_true, ih,
        List.flatMap_cons]

/-- Claim C6 as amended: with verbose reporting enabled every failing row
entry is reported as (index, reason, message, location) and then a bare
`StreamingInsertError` is still raised for the batch; with verbose disabled,
processing raises `StreamingInsertError` on the first failing row entry,
with a message summarizing that row and pointing the caller to verbose
mode. -/
theorem C6_insert_errors (ies : List InsertError) (row : Nat)
    (e : InsertErrorEntry) (es : List InsertErrorEntry) (rest : List InsertError) :
    process_insert_errors true ies
      = (ies.flatMap (fun ie => ie.errors.map (format_insert_error ie.index)),
         some (.streamingInsertError none)) ∧
    process_insert_errors false (⟨row, e :: es⟩ :: rest)
      = ([], some (.streamingInsertError (some
          (format_insert_error row e ++ "\nEnable verbose logging to see all errors")))) := by
  constructor
  · rw [process_insert_errors, process_insert_errors_outer_true]
  · rfl

/-- Claim C8, counterexample to the error kind as stated: a configuration
with two top-level keys is rejected with the builtin `ValueError` — the
repository has no `ConfigurationError` class, so no run produces one. -/
theorem C8_counterexample :
    jobs_query_validate (some "SELECT 1") (some [("query", []), ("copy", [])])
      = .error (.valueError "Only one job type must be specified, but given query,copy") ∧
    ¬ ∃ m, jobs_query_validate (some "SELECT 1") (some [("query", []), ("copy", [])])
        = .error (.configurationError m) := by
  constructor
  · rfl
  · rintro ⟨m, hm⟩
    rw [show jobs_query_validate (some "SELECT 1") (some [("query", []), ("copy", [])])
        = .error (.valueError "Only one job type must be specified, but given query,copy")
      from rfl] at hm
    simp at hm

/-- Claim C8 as amended: for both query and copy submission, a supplied
configuration whose top-level key set is not exactly the job kind is
rejected with `ValueError` before any network call (the validation precedes
the `jobs.insert` call in the source); a configuration with a key count
other than one is rejected with the message
"Only one job type must be specified, but given ..." listing the keys. -/
theorem C8_config_validation (q : String) (cfg : List (String × List String)) :
    (cfg.length ≠ 1 ∨ cfg.lookup "query" = none →
      ∃ m, jobs_query_validate (some q) (some cfg) = .error (.valueError m)) ∧
    (cfg.length ≠ 1 ∨ cfg.lookup "copy" = none →
      ∃ m, jobs_copy_validate (some cfg) = .error (.valueError m)) ∧
    (cfg.length ≠ 1 →
      jobs_query_validate (some q) (some cfg)
        = .error (.valueError
            ("Only one job type must be specified, but given " ++ joinKeys cfg)) ∧
      jobs_copy_validate (some cfg)
        = .error (.valueError
            ("Only one job type must be specified, but given " ++ joinKeys cfg))) := by
  refine ⟨?_, ?_, ?_⟩
  · rintro (hlen | hkey)
    · refine ⟨"Only one job type must be specified, but given " ++ joinKeys cfg, ?_⟩
      simp [jobs_query_validate, hlen]
    · by_cases hlen : cfg.length ≠ 1
      · refine ⟨"Only one job type must be specified, but given " ++ joinKeys cfg, ?_⟩
        simp [jobs_query_validate, hlen]
      · refine ⟨"Only \u0027query\u0027 job type is supported", ?_⟩
        simp [jobs_query_validate, hlen, hkey]
  · rintro (hlen | hkey)
    · refine ⟨"Only one job type must be specified, but given " ++ joinKeys cfg, ?_⟩
      simp [jobs_copy_validate, hlen]
    · by_cases hlen : cfg.length ≠ 1
      · refine ⟨"Only one job type must be specified, but given " ++ joinKeys cfg, ?_⟩
        simp [jobs_copy_validate, hlen]
      · refine ⟨"Only \u0027copy\u0027 job type is supported", ?_⟩
        simp [jobs_copy_validate, hlen, hkey]
  · intro hlen
    constructor
    · simp [jobs_query_validate, hlen]
    · simp [jobs_copy_validate, hlen]

/-- Claim C3: with a nonzero timeout configured and a job that never reports
completion, the poll loop raises `QueryTimeout` at the first iteration whose
elapsed-time reading exceeds the timeout (the check precedes each
`getQueryResults` call), so it terminates for any sufficient fuel instead of
polling indefinitely. -/
theorem C3_poll_timeout {Sch Row : Type} (t : Nat)
    (replies : Nat → QueryReply Sch Row) (elapsedMs : Nat → Nat) (n0 : Nat)
    (ht : t ≠ 0)
    (hnever : ∀ n, (replies n).jobComplete.getD false = false)
    (hex : t < elapsedMs n0)
    (hfirst : ∀ m, m < n0 → ¬ t < elapsedMs m) :
    ∀ fuel, n0 < fuel →
      poll_loop (some t) replies elapsedMs fuel 0
        = some (.error (.queryTimeout ("Query timeout: " ++ toString t ++ " ms"))) := by
  have aux : ∀ fuel n, n ≤ n0 → n0 - n < fuel →
      poll_loop (some t) replies elapsedMs fuel n
        = some (.error (.queryTimeout ("Query timeout: " ++ toString t ++ " ms"))) := by
    intro fuel
    induction fuel with
    | zero => intro n hn hf; omega
    | succ fuel ih =>
        intro n hn hf
        simp only [poll_loop, hnever n, Bool.false_eq_true, if_false]
        by_cases hn0 : n = n0
        · subst hn0
          rw [if_pos ⟨ht, hex⟩]
        · have hlt : n < n0 := by omega
          rw [if_neg (fun hcond => hfirst n hlt hcond.2)]
          exact ih (n + 1) (by omega) (by omega)
  exact fun fuel hf => aux fuel 0 (by omega) (by omega)

/-- Witness for C3: a 100 ms timeout against a job double that never
completes, with elapsed readings 60, 120, ... ms, fails with `QueryTimeout`
within three loop iterations. -/
theorem C3_poll_timeout_witness :
    @poll_loop Unit Unit (some 100)
      (fun _ => { jobComplete := some false, schema := () })
      (fun n => 60 * (n + 1)) 3 0
      = some (.error (.queryTimeout ("Query timeout: " ++ toString 100 ++ " ms"))) :=
  C3_poll_timeout 100 (fun _ => { jobComplete := some false, schema := () })
    (fun n => 60 * (n + 1)) 1 (by omega) (fun _ => rfl) (by decide)
    (fun m hm => by interval_cases m; decide) 3 (by omega)

/-- Claim C2: inside the drain loop, when the rows accumulated after
consuming a page are still fewer than totalRows, a falsy page token fails
the drain with `InvalidPageToken` ("Required pageToken was missing. ..."),
and a previously seen token fails it with `InvalidPageToken`
("A duplicate pageToken was returned"); both outcomes are immediate (one
loop step, any fuel), so the drain cannot loop forever on a duplicate. -/
theorem C2_page_token_validation {Sch Row : Type}
    (fetch : Option String → QueryReply Sch Row) (total_rows fuel : Nat)
    (reply : QueryReply Sch Row) (pages : List (List Row))
    (seen : List (Option String)) (current_row : Nat) (page : List Row)
    (hrows : reply.rows = some page)
    (hlt : current_row < total_rows)
    (hlt2 : current_row + page.length < total_rows) :
    (optStrFalsy reply.pageToken = true →
      drainLoop fetch total_rows (fuel + 1) reply pages seen current_row
        = some (.error (.invalidPageToken (some
            ("Required pageToken was missing. Received " ++
             toString (current_row + page.length) ++ " of " ++
             toString total_rows ++ " rows"))))) ∧
    (optStrFalsy reply.pageToken = false → reply.pageToken ∈ seen →
      drainLoop fetch total_rows (fuel + 1) reply pages seen current_row
        = some (.error (.invalidPageToken
            (some "A duplicate pageToken was returned")))) := by
  have hne : ¬ current_row + page.length = total_rows := by omega
  constructor
  · intro hfalsy
    simp only [drainLoop, hrows, if_pos hlt, if_neg hne]
    rw [if_pos ⟨hfalsy, hlt2⟩]
  · intro hnotfalsy hmem
    simp only [drainLoop, hrows, if_pos hlt, if_neg hne]
    rw [if_neg (fun hcond => by rw [hnotfalsy] at hcond; exact Bool.false_ne_true hcond.1),
      if_pos hmem]

/-- Witness for C2: one loop step on a response missing its token while rows
remain, and one on a response repeating a seen token. -/
theorem C2_page_token_validation_witness :
    @drainLoop Unit Unit (fun _ => { schema := () }) 5 1
        { schema := (), rows := some [()], pageToken := none } [] [] 0
      = some (.error (.invalidPageToken (some
          ("Required pageToken was missing. Received " ++
           toString (0 + [()].length) ++ " of " ++ toString 5 ++ " rows")))) ∧
    @drainLoop Unit Unit (fun _ => { schema := () }) 5 1
        { schema := (), rows := some [()], pageToken := some "tok" } [] [some "tok"] 0
      = some (.error (.invalidPageToken
          (some "A duplicate pageToken was returned"))) :=
  ⟨(C2_page_token_validation (fun _ => { schema := () }) 5 0
      { schema := (), rows := some [()], pageToken := none } [] [] 0 [()]
      rfl (by omega) (by decide)).1 rfl,
   (C2_page_token_validation (fun _ => { schema := () }) 5 0
      { schema := (), rows := some [()], pageToken := some "tok" } [] [some "tok"] 0 [()]
      rfl (by omega) (by decide)).2 (by decide) (by simp)⟩

/-- Witness for C8 at a two-key configuration. -/
theorem C8_config_validation_witness :
    jobs_query_validate (some "SELECT 1") (some [("query", []), ("copy", [])])
      = .error (.valueError
          ("Only one job type must be specified, but given "
            ++ joinKeys [("query", []), ("copy", [])])) ∧
    jobs_copy_validate (some [("query", []), ("copy", [])])
      = .error (.valueError
          ("Only one job type must be specified, but given "
            ++ joinKeys [("query", []), ("copy", [])])) :=
  (C8_config_validation "SELECT 1" [("query", []), ("copy", [])]).2.2 (by decide)

theorem sum_len_take_lt {Row : Type} (pages : List (List Row))
    (hne : ∀ p ∈ pages, p ≠ []) (i : Nat) (hi : i < pages.length) :
    ((pages.take i).map List.length).sum < (pages.map List.length).sum := by
  conv_rhs => rw [← List.take_append_drop i pages]
  rw [List.map_append, List.sum_append]
  have hdrop : pages.drop i ≠ [] := by
    intro hcon
    have hl := congrArg List.length hcon
    simp only [List.length_drop, List.length_nil] at hl
    omega
  obtain ⟨p, rest, hd⟩ := List.exists_cons_of_ne_nil hdrop
  have hp : p ∈ pages := List.mem_of_mem_drop (by rw [hd]; exact List.mem_cons_self _ _)
  have hplen : 0 < p.length := List.length_pos.mpr (hne p hp)
  rw [hd]
  simp only [List.map_cons, List.sum_cons]
  omega

theorem take_succ_of_get? {Row : Type} (pages : List (List Row)) (i : Nat)
    (page : List Row) (hpage : pages.get? i = some page) :
    pages.take (i + 1) = pages.take i ++ [page] := by
  have h1 := @List.take_succ _ pages i
  have hpage2 : pages[i]? = some page := by
    rw [← List.get?_eq_getElem?]
    exact hpage
  rw [hpage2] at h1
  simpa using h1

/-- Loop invariant for the drain loop against a well-behaved remote double:
entering the iteration that consumes page `i` with the state built from the
first `i` pages yields all the pages. -/
theorem drainLoop_chain {Sch Row : Type}
    (fetch : Option String → QueryReply Sch Row)
    (replies : Nat → QueryReply Sch Row)
    (pages : List (List Row)) (tok : Nat → String) (K : Nat)
    (hK : pages.length = K)
    (hne : ∀ p ∈ pages, p ≠ [])
    (hrows : ∀ i, i < K → (replies i).rows = pages.get? i)
    (htok : ∀ i, i + 1 < K → (replies i).pageToken = some (tok i))
    (htokne : ∀ i, i + 1 < K → tok i ≠ "")
    (htokinj : ∀ i j, i + 1 < K → j + 1 < K → tok i = tok j → i = j)
    (hfetch : ∀ i, i + 1 < K → fetch (some (tok i)) = replies (i + 1)) :
    ∀ fuel i, i < K → K - i ≤ fuel →
      drainLoop fetch ((pages.map List.length).sum) fuel (replies i)
          (pages.take i) ((List.range i).map (fun j => some (tok j)))
          (((pages.take i).map List.length).sum)
        = some (.ok pages) := by
  intro fuel
  induction fuel with
  | zero => intro i hi hf; omega
  | succ fuel ih =>
      intro i hi hf
      have hilen : i < pages.length := hK ▸ hi
      have hpage : pages.get? i = some (pages.get ⟨i, hilen⟩) := List.get?_eq_get hilen
      set page := pages.get ⟨i, hilen⟩ with hpagedef
      have hcur : ((pages.take i).map List.length).sum < (pages.map List.length).sum :=
        sum_len_take_lt pages hne i hilen
      have htake : pages.take (i + 1) = pages.take i ++ [page] :=
        take_succ_of_get? pages i page hpage
      have hsum : ((pages.take (i + 1)).map List.length).sum
          = ((pages.take i).map List.length).sum + page.length := by
        rw [htake]
        simp
      simp only [drainLoop, hrows i hi, hpage, if_pos hcur]
      by_cases hlast : i + 1 = K
      · have hallsum : pages.take (i + 1) = pages := by
          rw [hlast, ← hK]
          exact List.take_length pages
        have hfin : ((pages.take i).map List.length).sum + page.length
            = (pages.map List.length).sum := by
          rw [← hsum, hallsum]
        rw [if_pos hfin, ← htake, hallsum]
      · have hlt2 : i + 1 < K := by omega
        have hcur2 : ((pages.take i).map List.length).sum + page.length
            < (pages.map List.length).sum := by
          rw [← hsum]
          exact sum_len_take_lt pages hne (i + 1) (by omega)
        have hmiss : ¬ (optStrFalsy ((replies i).pageToken) = true ∧
            ((pages.take i).map List.length).sum + page.length
              < (pages.map List.length).sum) := by
          intro hcond
          rw [htok i hlt2] at hcond
          have := hcond.1
          simp only [optStrFalsy, decide_eq_true_eq] at this
          exact htokne i hlt2 this
        have hdup : ¬ (replies i).pageToken
            ∈ (List.range i).map (fun j => some (tok j)) := by
          rw [htok i hlt2]
          intro hmem
          simp only [List.mem_map, List.mem_range, Option.some.injEq] at hmem
          obtain ⟨j, hj, hje⟩ := hmem
          have := htokinj j i (by omega) hlt2 hje
          omega
        rw [if_neg (by omega), if_neg hmiss, if_neg hdup, htok i hlt2, hfetch i hlt2]
        have hseen : (List.range i).map (fun j => some (tok j)) ++ [some (tok i)]
            = (List.range (i + 1)).map (fun j => some (tok j)) := by
          rw [List.range_succ, List.map_append]
          rfl
        rw [hseen, ← htake, ← hsum]
        exact ih (i + 1) hlt2 (by omega)

/-- Claim C1: against a remote double returning N total rows split across K
pages linked by distinct non-empty tokens, draining returns exactly those N
rows partitioned into the K pages in order, with the schema taken from the
first response only (the schemas of later responses are unconstrained here,
so they cannot influence the result); and when totalRows is 0 the returned
page sequence is empty for every fetch double, so no page is ever fetched. -/
theorem C1_pagination_round_trip {Sch Row : Type} :
    (∀ (fetch : Option String → QueryReply Sch Row)
        (replies : Nat → QueryReply Sch Row)
        (pages : List (List Row)) (tok : Nat → String) (N K fuel : Nat),
        pages.length = K → 1 ≤ K → (∀ p ∈ pages, p ≠ []) →
        N = (pages.map List.length).sum →
        (replies 0).totalRows = some N →
        (∀ i, i < K → (replies i).rows = pages.get? i) →
        (∀ i, i + 1 < K → (replies i).pageToken = some (tok i)) →
        (∀ i, i + 1 < K → tok i ≠ "") →
        (∀ i j, i + 1 < K → j + 1 < K → tok i = tok j → i = j) →
        (∀ i, i + 1 < K → fetch (some (tok i)) = replies (i + 1)) →
        K ≤ fuel →
        drain fetch (replies 0) fuel = some (.ok ((replies 0).schema, pages))) ∧
    (∀ (fetch : Option String → QueryReply Sch Row) (first : QueryReply Sch Row)
        (fuel : Nat), first.totalRows.getD 0 = 0 → 1 ≤ fuel →
        drain fetch first fuel = some (.ok (first.schema, []))) := by
  constructor
  · intro fetch replies pages tok N K fuel hK hK1 hne hN htr hrows htok htokne
      htokinj hfetch hfuel
    have hchain := drainLoop_chain fetch replies pages tok K hK hne hrows htok
      htokne htokinj hfetch fuel 0 (by omega) (by omega)
    simp only [List.take_zero, List.range_zero, List.map_nil, List.sum_nil] at hchain
    rw [drain]
    simp only [htr, Option.getD_some, hN]
    rw [hchain]
    rfl
  · intro fetch first fuel h0 hf
    obtain ⟨fuel, rfl⟩ : ∃ f, fuel = f + 1 := ⟨fuel - 1, by omega⟩
    rw [drain]
    simp only [h0]
    cases hr : first.rows with
    | none => simp [drainLoop, hr, Except.map]
    | some page => simp [drainLoop, hr, Except.map]

/-- Witness for C1: a double serving 3 rows in 2 pages linked by one token,
and a zero-row response drained with an arbitrary double. -/
theorem C1_pagination_round_trip_witness :
    @drain Unit Nat
        (fun t => if t = some "t0" then
            { schema := (), rows := some [3] } else { schema := () })
        ((fun i => if i = 0 then
            { schema := (), totalRows := some 3, rows := some [1, 2],
              pageToken := some "t0" }
          else { schema := (), rows := some [3] }) 0)
        2
      = some (.ok ((), [[1, 2], [3]])) ∧
    @drain Unit Nat (fun _ => { schema := () })
        { schema := (), totalRows := some 0 } 1
      = some (.ok ((), [])) := by
  constructor
  · exact (C1_pagination_round_trip).1
      (fun t => if t = some "t0" then
          { schema := (), rows := some [3] } else { schema := () })
      (fun i => if i = 0 then
          { schema := (), totalRows := some 3, rows := some [1, 2],
            pageToken := some "t0" }
        else { schema := (), rows := some [3] })
      [[1, 2], [3]] (fun _ => "t0") 3 2 2
      rfl (by omega) (by decide) (by decide) rfl
      (fun i hi => by interval_cases i <;> rfl)
      (fun i hi => by
        have h0 : i = 0 := by omega
        subst h0
        rfl)
      (fun i _ => by
        show "t0" ≠ ""
        decide)
      (fun i j hi hj _ => by omega)
      (fun i hi => by
        have h0 : i = 0 := by omega
        subst h0
        rfl)
      (by omega)
  · exact (C1_pagination_round_trip).2 (fun _ => { schema := () })
      { schema := (), totalRows := some 0 } 1 rfl (by omega)

/-- Claim C4: uploading to a dollar-decorated partition of an existing
partitioned root table whose partition is non-empty, with replace policy and
a dataframe schema that is a subset of the root schema, stages into a
uniquely named temporary table (root_partition_rand), issues exactly one
overwrite job — a SELECT * from the temporary table with destinationTable
set to the partition, writeDisposition WRITE_TRUNCATE and allowLargeResults
true — then deletes the temporary table; and the trace contains no direct
streaming insert into the live partition. -/
theorem C4_partition_replace (env : RemoteEnv) (table_schema : List Field)
    (dest ds tid root part : String)
    (hsplit : rsplitOnce '.' dest = some (ds, tid))
    (hdec : rsplitOnce '$' tid = some (root, part))
    (hex : env.tableExists root = true)
    (hpart : env.timePartitioned root = true)
    (hrows : 0 < env.partitionNumRows)
    (hsub : schema_is_subset (env.remoteSchemaFields root) table_schema = true) :
    upload env table_schema dest "replace"
      = .ok [Action.jobsQuery ("SELECT COUNT(*) AS num_rows FROM " ++ dest)
               { priority := some "INTERACTIVE", useLegacySql := some true },
             Action.tablesInsert ds
               (root ++ "_" ++ part ++ "_" ++ toString env.rand) table_schema,
             Action.tabledataInsertAll ds
               (root ++ "_" ++ part ++ "_" ++ toString env.rand),
             Action.jobsQuery
               ("select * from " ++ ds ++ "." ++
                  (root ++ "_" ++ part ++ "_" ++ toString env.rand))
               { destinationTable := some
                   { projectId := env.projectId, datasetId := ds, tableId := tid },
                 createDisposition := some "CREATE_IF_NEEDED",
                 writeDisposition := some "WRITE_TRUNCATE",
                 allowLargeResults := some true },
             Action.tablesDelete ds (root ++ "_" ++ part ++ "_" ++ toString env.rand)]
      ∧
    (∀ acts, upload env table_schema dest "replace" = .ok acts →
      (acts.filter Action.isOverwriteJob).length = 1 ∧
      Action.tabledataInsertAll ds tid ∉ acts) := by
  have hdot : '.' ∈ dest.data := mem_of_rsplitOnce hsplit
  have hcont : contains_partition_decorator tid = true := by
    simp [contains_partition_decorator, mem_of_rsplitOnce hdec]
  have htiddata : tid.data = root.data ++ '$' :: part.data := by
    rw [rsplitOnce] at hdec
    cases hq : rsplitList '$' tid.data with
    | none => rw [hq] at hdec; simp at hdec
    | some q =>
        obtain ⟨a, b⟩ := q
        rw [hq] at hdec
        simp only [Option.map_some', Option.some.injEq, Prod.mk.injEq] at hdec
        obtain ⟨h1, h2⟩ := hdec
        subst h1
        subst h2
        simpa using rsplitList_eq_append hq
  have htmpdata : (root ++ "_" ++ part ++ "_" ++ toString env.rand).data
      = root.data ++ '_' :: (part.data ++ '_' :: (toString env.rand).data) := by
    have hu : ("_" : String).data = ['_'] := rfl
    simp [String.data_append, hu]
  have hne2 : tid ≠ root ++ "_" ++ part ++ "_" ++ toString env.rand := by
    intro h
    have hdata := congrArg String.data h
    rw [htiddata, htmpdata] at hdata
    have hlen := congrArg List.length hdata
    simp only [List.length_append, List.length_cons] at hlen
    omega
  have hmain : upload env table_schema dest "replace"
      = .ok [Action.jobsQuery ("SELECT COUNT(*) AS num_rows FROM " ++ dest)
               { priority := some "INTERACTIVE", useLegacySql := some true },
             Action.tablesInsert ds
               (root ++ "_" ++ part ++ "_" ++ toString env.rand) table_schema,
             Action.tabledataInsertAll ds
               (root ++ "_" ++ part ++ "_" ++ toString env.rand),
             Action.jobsQuery
               ("select * from " ++ ds ++ "." ++
                  (root ++ "_" ++ part ++ "_" ++ toString env.rand))
               { destinationTable := some
                   { projectId := env.projectId, datasetId := ds, tableId := tid },
                 createDisposition := some "CREATE_IF_NEEDED",
                 writeDisposition := some "WRITE_TRUNCATE",
                 allowLargeResults := some true },
             Action.tablesDelete ds (root ++ "_" ++ part ++ "_" ++ toString env.rand)] := by
    rw [upload]
    have hval : ("replace" : String) = "fail" ∨ ("replace" : String) = "replace"
        ∨ ("replace" : String) = "append" := Or.inr (Or.inl rfl)
    rw [if_neg (not_not_intro hval), if_neg (not_not_intro hdot)]
    simp only [hsplit]
    rw [hcont, if_pos rfl]
    simp only [hdec]
    rw [if_neg (not_not_intro hex), if_neg (not_not_intro hpart)]
    simp only [gt_iff_lt]
    rw [if_pos hrows]
    rw [if_neg (by decide : ¬ ("replace" : String) = "fail"),
      if_neg (by decide : ¬ ("replace" : String) = "append"),
      if_neg (not_not_intro hsub)]
  refine ⟨hmain, fun acts hacts => ?_⟩
  rw [hmain] at hacts
  injection hacts with hacts
  subst hacts
  constructor
  · simp [Action.isOverwriteJob]
  · simp [hne2]

/-- Witness for C4 against a concrete remote environment and the destination
ds.tbl$20240101. -/
theorem C4_partition_replace_witness :
    upload
      { projectId := "proj", tableExists := fun _ => true,
        remoteSchemaFields := fun _ => [⟨"a", "STRING"⟩],
        timePartitioned := fun _ => true, partitionNumRows := 5, rand := 7 }
      [⟨"a", "STRING"⟩] "ds.tbl$20240101" "replace"
      = .ok [Action.jobsQuery ("SELECT COUNT(*) AS num_rows FROM " ++ "ds.tbl$20240101")
               { priority := some "INTERACTIVE", useLegacySql := some true },
             Action.tablesInsert "ds"
               ("tbl" ++ "_" ++ "20240101" ++ "_" ++ toString 7) [⟨"a", "STRING"⟩],
             Action.tabledataInsertAll "ds"
               ("tbl" ++ "_" ++ "20240101" ++ "_" ++ toString 7),
             Action.jobsQuery
               ("select * from " ++ "ds" ++ "." ++
                  ("tbl" ++ "_" ++ "20240101" ++ "_" ++ toString 7))
               { destinationTable := some
                   { projectId := "proj", datasetId := "ds",
                     tableId := "tbl$20240101" },
                 createDisposition := some "CREATE_IF_NEEDED",
                 writeDisposition := some "WRITE_TRUNCATE",
                 allowLargeResults := some true },
             Action.tablesDelete "ds"
               ("tbl" ++ "_" ++ "20240101" ++ "_" ++ toString 7)] :=
  (C4_partition_replace
    { projectId := "proj", tableExists := fun _ => true,
      remoteSchemaFields := fun _ => [⟨"a", "STRING"⟩],
      timePartitioned := fun _ => true, partitionNumRows := 5, rand := 7 }
    [⟨"a", "STRING"⟩] "ds.tbl$20240101" "ds" "tbl$20240101" "tbl" "20240101"
    (by decide) (by decide) rfl rfl (by decide) (by decide)).1

end PandasBigquery
